import Mathlib

/-!
Shallow embedding of the test-orchestration engine implemented in `demo.py`.

The source is a single Python module with:
  * data types (`TestStatus`, `TestResult`, `ConfigField`, `TestCase`),
  * an abstract `TestBundle` (config schema, ordered test cases, a per-case
    executor) together with `execute_bundle` and `validate_config`,
  * three concrete bundles (e-commerce, form validation, API health),
  * a `BundleRegistry` (Python dict keyed by a derived id),
  * a `TestRunner` (`run_bundle` plus `_calculate_statistics`),
  * a `ReportGenerator` with JSON / text / HTML / ASCII-canvas renderers.

Modelling decisions (each noted where used):
  * Python exceptions become `Except String`; `raise ValueError(msg)` is
    `.error msg`, and a `try/except` that captures `str(e)` receives that
    string.
  * Python dicts used as ordered string-keyed maps become association lists
    with Python's update semantics (replace in place, else append).
  * Wall-clock readings (`time.time()`, `datetime.now().isoformat()`) are
    inputs: `run_bundle`/`execute_bundle` take the measured `execution_time`
    and the timestamp string `now` as parameters and every theorem
    quantifies over them.
  * `random.random()`-driven stub executors are parameterised by an
    `Oracle` supplying the pass/fail decision and measured duration.
  * Python `round(x, 2)` (round-half-to-even) is modelled on exact
    rationals; Python floats' binary rounding is not modelled, and no claim
    below depends on float-level digits.
-/

/-- `TestStatus` enum (demo.py lines 29-35). -/
inductive TestStatus where
  | pending
  | running
  | passed
  | failed
  | skipped
deriving DecidableEq

/-- `TestStatus.value`: the lowercase string of each enum member. -/
def TestStatus.value : TestStatus → String
  | .pending => "pending"
  | .running => "running"
  | .passed => "passed"
  | .failed => "failed"
  | .skipped => "skipped"

/-- `TestResult` dataclass (demo.py lines 38-48).  `duration_ms` is a Python
int (unconstrained), `url`/`error_message` default to `None`; the
`timestamp` default factory reads the clock, so constructors here receive
the timestamp explicitly. -/
structure TestResult where
  name : String
  description : String
  status : TestStatus
  duration_ms : Int
  details : String
  url : Option String := none
  timestamp : String
  error_message : Option String := none
deriving DecidableEq

/-- A Python value as it appears in caller-supplied configuration dicts
(strings in the demo; `None`, ints and bools are included so that Python
truthiness is represented faithfully). -/
inductive PyVal where
  | vNone
  | vStr (s : String)
  | vInt (n : Int)
  | vBool (b : Bool)
deriving DecidableEq

/-- Python truthiness of a value (`bool(v)`). -/
def PyVal.truthy : PyVal → Bool
  | .vNone => false
  | .vStr s => !s.isEmpty
  | .vInt n => n != 0
  | .vBool b => b

/-- Python `str(v)` as used by f-string interpolation. -/
def PyVal.pyStr : PyVal → String
  | .vNone => "None"
  | .vStr s => s
  | .vInt n => toString n
  | .vBool b => if b then "True" else "False"

/-- A configuration dict: ordered association list from field name to value. -/
abbrev Config := List (String × PyVal)

/-- Python `d.get(k)` / `d[k] = v` on an ordered string-keyed dict.
`pyDictSet` replaces in place when the key exists (keeping its position,
as CPython dicts do) and appends otherwise. -/
def pyDictGet {α : Type} (d : List (String × α)) (k : String) : Option α :=
  (d.find? (fun p => p.1 == k)).map (fun p => p.2)

/-- Python `d[k] = v` (see `pyDictGet`). -/
def pyDictSet {α : Type} (d : List (String × α)) (k : String) (v : α) : List (String × α) :=
  if d.any (fun p => p.1 == k) then
    d.map (fun p => if p.1 == k then (k, v) else p)
  else
    d ++ [(k, v)]

/-- Truthiness of `config.get(name)`: `None` (missing key) is falsy. -/
def pyTruthyOpt (v : Option PyVal) : Bool :=
  match v with
  | none => false
  | some v => v.truthy

/-- Python `str` of an `Optional[str]` under f-string interpolation. -/
def pyStrOpt : Option String → String
  | none => "None"
  | some s => s

/-- `ConfigField` dataclass (demo.py lines 64-72). -/
structure ConfigField where
  field_type : String
  label : String
  required : Bool := false
  default : Option PyVal := none
  placeholder : Option String := none
  help_text : Option String := none
deriving DecidableEq

/-- `TestCase` dataclass (demo.py lines 75-83). -/
structure TestCase where
  name : String
  description : String
  test_function : String
  success_message : String
  failure_message : String
  timeout_seconds : Int := 30
deriving DecidableEq

/-- `TestBundle` (demo.py lines 86-166): the three abstract capabilities are
fields; `execute_test` may raise, modelled by `Except String`. -/
structure TestBundle where
  name : String := "Base Test Bundle"
  description : String := "Base test bundle description"
  category : String := "general"
  icon : String := "test"
  version : String := "1.0.0"
  get_config_schema : List (String × ConfigField)
  get_test_cases : List TestCase
  execute_test : TestCase → Config → Except String TestResult

/-- The loop body of `TestBundle.execute_bundle` (demo.py lines 129-143):
the `try` appends the executor's result, the `except` appends a synthesized
failed result carrying the captured error text. -/
def execute_cases (b : TestBundle) (config : Config) (now : String) :
    List TestCase → List TestResult
  | [] => []
  | test_case :: rest =>
      (match b.execute_test test_case config with
       | .ok result => result
       | .error e =>
           { name := test_case.name
             description := test_case.description
             status := .failed
             duration_ms := 0
             details := test_case.failure_message
             url := none
             timestamp := now
             error_message := some e }) :: execute_cases b config now rest

/-- `TestBundle.execute_bundle` (demo.py lines 121-145). -/
def execute_bundle (b : TestBundle) (config : Config) (now : String) : List TestResult :=
  execute_cases b config now b.get_test_cases

/-- The loop of `TestBundle.validate_config` (demo.py lines 147-155) over
the schema items in insertion order. -/
def validate_fields (config : Config) : List (String × ConfigField) → Bool × Option String
  | [] => (true, none)
  | (field_name, field_schema) :: rest =>
      if field_schema.required && !(pyTruthyOpt (pyDictGet config field_name)) then
        (false, some ("Required field '" ++ field_schema.label ++ "' is missing"))
      else
        validate_fields config rest

/-- `TestBundle.validate_config` (demo.py lines 147-155). -/
def validate_config (b : TestBundle) (config : Config) : Bool × Option String :=
  validate_fields config b.get_config_schema

/-- The dict returned by `TestBundle.get_bundle_info` (demo.py lines 157-166). -/
structure BundleInfo where
  name : String
  description : String
  category : String
  icon : String
  version : String
  test_count : Nat
deriving DecidableEq

/-- `TestBundle.get_bundle_info` (demo.py lines 157-166). -/
def get_bundle_info (b : TestBundle) : BundleInfo :=
  { name := b.name
    description := b.description
    category := b.category
    icon := b.icon
    version := b.version
    test_count := b.get_test_cases.length }

/-- `BundleRegistry._bundles`: a Python dict from derived id to bundle. -/
abbrev BundleRegistry := List (String × TestBundle)

/-- The id derivation inside `BundleRegistry.register_bundle`
(demo.py line 502): `bundle.name.lower().replace(' ', '_')`, as the two
per-character passes over the string.  `Char.toLower` lowers ASCII
letters; all bundle names in the repository are ASCII. -/
def bundle_id_of_name (name : String) : String :=
  String.mk ((name.toList.map Char.toLower).map (fun c => if c = ' ' then '_' else c))

/-- `BundleRegistry.register_bundle` (demo.py lines 500-503). -/
def register_bundle (reg : BundleRegistry) (bundle : TestBundle) : BundleRegistry :=
  pyDictSet reg (bundle_id_of_name bundle.name) bundle

/-- `BundleRegistry.get_bundle` (demo.py lines 505-507). -/
def get_bundle (reg : BundleRegistry) (bundle_id : String) : Option TestBundle :=
  pyDictGet reg bundle_id

/-- `BundleRegistry.list_bundles` (demo.py lines 509-511). -/
def list_bundles (reg : BundleRegistry) : List BundleInfo :=
  reg.map (fun p => get_bundle_info p.2)

/-- `BundleRegistry.get_bundle_ids` (demo.py lines 513-515). -/
def get_bundle_ids (reg : BundleRegistry) : List String :=
  reg.map (fun p => p.1)

/-- Python `round(q)` to an integer: round half to even (exact rationals;
see the header note on floats). -/
def pyRoundHalfEven (q : ℚ) : Int :=
  let f : Int := ⌊q⌋
  if q - (f : ℚ) < 1 / 2 then f
  else if 1 / 2 < q - (f : ℚ) then f + 1
  else if f % 2 = 0 then f else f + 1

/-- Python `round(q, 2)`. -/
def pyRound2 (q : ℚ) : ℚ :=
  (pyRoundHalfEven (q * 100) : ℚ) / 100

/-- The dict returned by `TestRunner._calculate_statistics`
(demo.py lines 587-595). -/
structure Statistics where
  total_tests : Nat
  passed : Nat
  failed : Nat
  skipped : Nat
  pass_rate : ℚ
  total_duration_ms : Int
  execution_time_seconds : ℚ
deriving DecidableEq

/-- `TestRunner._calculate_statistics` (demo.py lines 574-595).  In the
source `pass_rate` is `(passed / total * 100) if total > 0 else 0`, and the
returned dict applies `round(pass_rate, 2)`. -/
def calculate_statistics (results : List TestResult) (execution_time : ℚ) : Statistics :=
  let total := results.length
  let passed := results.countP (fun r => decide (r.status = TestStatus.passed))
  let failed := results.countP (fun r => decide (r.status = TestStatus.failed))
  let skipped := results.countP (fun r => decide (r.status = TestStatus.skipped))
  { total_tests := total
    passed := passed
    failed := failed
    skipped := skipped
    pass_rate := pyRound2 (if 0 < total then (passed : ℚ) / (total : ℚ) * 100 else 0)
    total_duration_ms := (results.map (fun r => r.duration_ms)).sum
    execution_time_seconds := pyRound2 execution_time }

/-- The dict returned by `TestRunner.run_bundle` (demo.py lines 566-572).
The source stores `results` as `[r.to_dict() for r in results]`; here the
structured results are kept and `TestResult.to_dict` is applied by the JSON
encoder. -/
structure RunOutcome where
  bundle_info : BundleInfo
  config : Config
  results : List TestResult
  statistics : Statistics
  execution_time : ℚ
deriving DecidableEq

/-- `TestRunner.run_bundle` (demo.py lines 531-572).  The two
`raise ValueError(...)` sites become `.error` with the same message; `now`
and `execution_time` stand for the clock readings (see header).  The unused
`progress_callback` parameter is omitted. -/
def run_bundle (reg : BundleRegistry) (bundle_id : String) (config : Config)
    (now : String) (execution_time : ℚ) : Except String RunOutcome :=
  match get_bundle reg bundle_id with
  | none => .error ("Bundle '" ++ bundle_id ++ "' not found")
  | some bundle =>
      let v := validate_config bundle config
      if v.1 then
        let results := execute_bundle bundle config now
        .ok { bundle_info := get_bundle_info bundle
              config := config
              results := results
              statistics := calculate_statistics results execution_time
              execution_time := execution_time }
      else
        .error ("Invalid configuration: " ++ pyStrOpt v.2)

/-- The nondeterministic inputs of the concrete bundles' `execute_test`
methods: `random.random()` decides pass/fail, `time.time()` differences give
the measured duration, and `datetime.now()` gives timestamps. -/
structure Oracle where
  shouldPass : TestCase → Bool
  durationMs : TestCase → Nat
  now : String

/-- `EcommerceBundle.execute_test` (demo.py lines 259-280). -/
def ecommerce_execute_test (o : Oracle) (test_case : TestCase) (config : Config) :
    Except String TestResult :=
  let should_pass := o.shouldPass test_case
  let duration_ms : Int := o.durationMs test_case
  let base_url := ((pyDictGet config "base_url").getD (.vStr "https://example-shop.com")).pyStr
  .ok { name := test_case.name
        description := test_case.description
        status := if should_pass then .passed else .failed
        duration_ms := duration_ms
        details := if should_pass then test_case.success_message else test_case.failure_message
        url := some (base_url ++ "/" ++ test_case.test_function)
        timestamp := o.now
        error_message := none }

/-- `EcommerceBundle` (demo.py lines 173-280). -/
def ecommerce_bundle (o : Oracle) : TestBundle :=
  { name := "E-commerce Checkout Flow"
    description := "Complete checkout process testing including cart, payment, and confirmation"
    category := "ecommerce"
    icon := "shopping-cart"
    get_config_schema :=
      [("base_url",
        { field_type := "url", label := "Website URL", required := true,
          default := some (.vStr "https://example-shop.com"),
          help_text := some "The base URL of the e-commerce website to test" }),
       ("test_user_email",
        { field_type := "text", label := "Test User Email",
          default := some (.vStr "test@example.com"),
          help_text := some "Email address for test user account" }),
       ("test_product_id",
        { field_type := "text", label := "Test Product ID",
          default := some (.vStr "PROD-123"),
          help_text := some "Product ID to use in tests" })]
    get_test_cases :=
      [{ name := "Homepage Load",
         description := "Verify homepage loads correctly with all critical elements",
         test_function := "test_homepage",
         success_message := "Homepage loaded successfully with navigation, search, and featured products visible",
         failure_message := "Homepage failed to load within timeout or critical elements missing" },
       { name := "Product Search",
         description := "Search functionality returns relevant results",
         test_function := "test_search",
         success_message := "Search executed successfully and returned relevant product results",
         failure_message := "Search functionality not responding or returned no results" },
       { name := "Add to Cart",
         description := "Product can be added to shopping cart",
         test_function := "test_add_to_cart",
         success_message := "Product added to cart successfully with correct quantity and price",
         failure_message := "Add to cart button not functioning or cart not updating" },
       { name := "Cart View",
         description := "Shopping cart displays items correctly with accurate totals",
         test_function := "test_cart_view",
         success_message := "Cart displays correct items, quantities, and calculates totals accurately",
         failure_message := "Cart totals incorrect, items missing, or display errors" },
       { name := "Checkout Process",
         description := "Checkout flow accepts valid customer information",
         test_function := "test_checkout",
         success_message := "Checkout form accepts and validates customer information correctly",
         failure_message := "Checkout form validation errors or form not submitting" },
       { name := "Payment Integration",
         description := "Payment gateway integration is functional",
         test_function := "test_payment",
         success_message := "Payment gateway responds correctly and processes test transaction",
         failure_message := "Payment gateway connection failed or timeout" },
       { name := "Order Confirmation",
         description := "Order confirmation page displays with valid order details",
         test_function := "test_confirmation",
         success_message := "Order confirmation displayed with valid order ID and customer details",
         failure_message := "Order confirmation page not displayed or missing order information" }]
    execute_test := ecommerce_execute_test o }

/-- `FormValidationBundle.execute_test` (demo.py lines 356-376). -/
def form_validation_execute_test (o : Oracle) (test_case : TestCase) (config : Config) :
    Except String TestResult :=
  let should_pass := o.shouldPass test_case
  let duration_ms : Int := o.durationMs test_case
  let base_url := ((pyDictGet config "base_url").getD (.vStr "https://example.com")).pyStr
  let form_path := ((pyDictGet config "form_path").getD (.vStr "/contact")).pyStr
  .ok { name := test_case.name
        description := test_case.description
        status := if should_pass then .passed else .failed
        duration_ms := duration_ms
        details := if should_pass then test_case.success_message else test_case.failure_message
        url := some (base_url ++ form_path)
        timestamp := o.now
        error_message := none }

/-- `FormValidationBundle` (demo.py lines 283-376). -/
def form_validation_bundle (o : Oracle) : TestBundle :=
  { name := "Form Validation Suite"
    description := "Comprehensive form field validation testing for web applications"
    category := "forms"
    icon := "clipboard-list"
    get_config_schema :=
      [("base_url",
        { field_type := "url", label := "Website URL", required := true,
          default := some (.vStr "https://example.com"),
          help_text := some "The base URL of the website with forms to test" }),
       ("form_path",
        { field_type := "text", label := "Form Path",
          default := some (.vStr "/contact"),
          help_text := some "Path to the form page (e.g., /contact, /signup)" })]
    get_test_cases :=
      [{ name := "Email Validation",
         description := "Email field accepts valid formats and rejects invalid ones",
         test_function := "test_email_validation",
         success_message := "Email validation working correctly - accepts valid formats, rejects invalid",
         failure_message := "Email validation not functioning properly" },
       { name := "Phone Number Validation",
         description := "Phone field validates international formats correctly",
         test_function := "test_phone_validation",
         success_message := "Phone validation accepts valid international formats",
         failure_message := "Phone validation issues detected with format checking" },
       { name := "Required Fields",
         description := "Required field validation prevents empty submission",
         test_function := "test_required_fields",
         success_message := "Required field validation working - prevents empty submission",
         failure_message := "Required fields can be bypassed or validation missing" },
       { name := "Password Strength",
         description := "Password requirements enforced (length, complexity)",
         test_function := "test_password_strength",
         success_message := "Password strength requirements properly enforced",
         failure_message := "Weak passwords accepted or requirements not enforced" },
       { name := "Date Picker Validation",
         description := "Date fields accept valid dates only",
         test_function := "test_date_validation",
         success_message := "Date validation working correctly with proper format checking",
         failure_message := "Invalid dates accepted or date picker malfunction" },
       { name := "Form Submission",
         description := "Form submits successfully with valid data",
         test_function := "test_form_submission",
         success_message := "Form submitted successfully with confirmation message",
         failure_message := "Form submission failed or no confirmation received" }]
    execute_test := form_validation_execute_test o }

/-- `APIHealthBundle.execute_test` (demo.py lines 458-477). -/
def api_health_execute_test (o : Oracle) (test_case : TestCase) (config : Config) :
    Except String TestResult :=
  let should_pass := o.shouldPass test_case
  let duration_ms : Int := o.durationMs test_case
  let base_url := ((pyDictGet config "base_url").getD (.vStr "https://api.example.com")).pyStr
  .ok { name := test_case.name
        description := test_case.description
        status := if should_pass then .passed else .failed
        duration_ms := duration_ms
        details := if should_pass then test_case.success_message else test_case.failure_message
        url := some (base_url ++ "/v1/" ++ test_case.test_function)
        timestamp := o.now
        error_message := none }

/-- `APIHealthBundle` (demo.py lines 379-477). -/
def api_health_bundle (o : Oracle) : TestBundle :=
  { name := "API Health Checks"
    description := "Monitor API endpoint availability, response times, and status codes"
    category := "api"
    icon := "activity"
    get_config_schema :=
      [("base_url",
        { field_type := "url", label := "API Base URL", required := true,
          default := some (.vStr "https://api.example.com"),
          help_text := some "The base URL of the API to test" }),
       ("api_key",
        { field_type := "password", label := "API Key",
          default := some (.vStr ""),
          help_text := some "Optional API key for authentication" }),
       ("timeout_seconds",
        { field_type := "number", label := "Timeout (seconds)",
          default := some (.vStr "5"),
          help_text := some "Maximum response time threshold" })]
    get_test_cases :=
      [{ name := "API Availability",
         description := "Check if API endpoint is accessible and responding",
         test_function := "test_availability",
         success_message := "API is accessible and responding to requests",
         failure_message := "API endpoint not reachable or connection timeout" },
       { name := "Response Time Check",
         description := "Verify API responds within acceptable timeframe",
         test_function := "test_response_time",
         success_message := "Response time within acceptable threshold",
         failure_message := "Response time exceeds configured threshold" },
       { name := "Authentication Test",
         description := "API authentication mechanism working correctly",
         test_function := "test_authentication",
         success_message := "Authentication successful with valid credentials",
         failure_message := "Authentication failed or invalid response" },
       { name := "Data Endpoint Validation",
         description := "Data retrieval endpoints returning valid JSON responses",
         test_function := "test_data_endpoints",
         success_message := "Data endpoints returning valid, well-formed JSON",
         failure_message := "Invalid response format or malformed JSON" },
       { name := "Error Handling Check",
         description := "API returns proper error codes for invalid requests",
         test_function := "test_error_handling",
         success_message := "Error handling working correctly with proper status codes",
         failure_message := "Improper error responses or missing error handling" },
       { name := "Rate Limiting Test",
         description := "API rate limiting functions as expected",
         test_function := "test_rate_limiting",
         success_message := "Rate limiting working correctly with proper 429 responses",
         failure_message := "Rate limiting not functioning or misconfigured" }]
    execute_test := api_health_execute_test o }

/-- `BundleRegistry.__init__` / `_load_default_bundles` (demo.py lines
490-498): registers the three built-in bundles in order. -/
def default_registry (o : Oracle) : BundleRegistry :=
  register_bundle (register_bundle (register_bundle [] (ecommerce_bundle o))
    (form_validation_bundle o)) (api_health_bundle o)

/-- Python `str()` of the float values appearing in reports
(`pass_rate`, `execution_time_seconds`).  Both are produced by
`round(_, 2)`, so the two-decimal case is rendered exactly
(`50.0`, `33.33`, `0.05`); the exact digit strings of arbitrary binary
floats are not modelled and no claim depends on them. -/
def pyFloatRepr (q : ℚ) : String :=
  if (q * 100).den = 1 then
    let c : Int := (q * 100).num
    let sign := if c < 0 then "-" else ""
    let a : Nat := c.natAbs
    let ip := a / 100
    let fr := a % 100
    if fr % 10 = 0 then sign ++ toString ip ++ "." ++ toString (fr / 10)
    else if fr < 10 then sign ++ toString ip ++ ".0" ++ toString fr
    else sign ++ toString ip ++ "." ++ toString fr
  else toString q

/-- A JSON value.  `json.dumps`/`json.loads` (Python stdlib) are modelled
as the identity on this tree; the dict built by `run_bundle` and
`TestResult.to_dict` is encoded into it. -/
inductive Json where
  | null
  | bool (b : Bool)
  | str (s : String)
  | num (q : ℚ)
  | arr (items : List Json)
  | obj (fields : List (String × Json))

/-- `None` / `str` serialization of an optional string field. -/
def jsonOfOptStr : Option String → Json
  | none => .null
  | some s => .str s

/-- `TestResult.to_dict` (demo.py lines 50-61). -/
def TestResult.to_dict (r : TestResult) : Json :=
  .obj [("name", .str r.name),
        ("description", .str r.description),
        ("status", .str r.status.value),
        ("duration_ms", .num r.duration_ms),
        ("details", .str r.details),
        ("url", jsonOfOptStr r.url),
        ("timestamp", .str r.timestamp),
        ("error_message", jsonOfOptStr r.error_message)]

/-- The `bundle_info` dict (demo.py lines 157-166) as a JSON value. -/
def bundle_info_to_json (bi : BundleInfo) : Json :=
  .obj [("name", .str bi.name),
        ("description", .str bi.description),
        ("category", .str bi.category),
        ("icon", .str bi.icon),
        ("version", .str bi.version),
        ("test_count", .num bi.test_count)]

/-- The statistics dict (demo.py lines 587-595) as a JSON value. -/
def statistics_to_json (s : Statistics) : Json :=
  .obj [("total_tests", .num s.total_tests),
        ("passed", .num s.passed),
        ("failed", .num s.failed),
        ("skipped", .num s.skipped),
        ("pass_rate", .num s.pass_rate),
        ("total_duration_ms", .num s.total_duration_ms),
        ("execution_time_seconds", .num s.execution_time_seconds)]

/-- JSON serialization of a configuration value. -/
def pyValToJson : PyVal → Json
  | .vNone => .null
  | .vStr s => .str s
  | .vInt n => .num n
  | .vBool b => .bool b

/-- JSON serialization of the echoed configuration dict. -/
def configToJson (c : Config) : Json :=
  .obj (c.map (fun p => (p.1, pyValToJson p.2)))

/-- `ReportGenerator.generate_json_report` (demo.py lines 605-608) as the
serialized value tree of the `run_bundle` dict (demo.py lines 566-572). -/
def generate_json_report (tr : RunOutcome) : Json :=
  .obj [("bundle_info", bundle_info_to_json tr.bundle_info),
        ("config", configToJson tr.config),
        ("results", .arr (tr.results.map TestResult.to_dict)),
        ("statistics", statistics_to_json tr.statistics),
        ("execution_time", .num tr.execution_time)]

/-- Key lookup in a parsed JSON object. -/
def jLookup (j : Json) (k : String) : Option Json :=
  match j with
  | .obj fields => pyDictGet fields k
  | _ => none

/-- Read a JSON string. -/
def jStr : Json → Option String
  | .str s => some s
  | _ => none

/-- Read a JSON number as a Python int. -/
def jInt : Json → Option Int
  | .num q => if q.den = 1 then some q.num else none
  | _ => none

/-- Read a JSON number as a nonnegative int. -/
def jNat : Json → Option Nat
  | .num q => if q.den = 1 ∧ 0 ≤ q.num then some q.num.toNat else none
  | _ => none

/-- Read a JSON number. -/
def jNum : Json → Option ℚ
  | .num q => some q
  | _ => none

/-- Read a nullable JSON string. -/
def jOptStr : Json → Option (Option String)
  | .null => some none
  | .str s => some (some s)
  | _ => none

/-- Parse a serialized status string back into the enum. -/
def statusOfValue (s : String) : Option TestStatus :=
  if s = "pending" then some .pending
  else if s = "running" then some .running
  else if s = "passed" then some .passed
  else if s = "failed" then some .failed
  else if s = "skipped" then some .skipped
  else none

/-- Parse one serialized result dict back into a `TestResult`. -/
def result_of_json (j : Json) : Option TestResult := do
  let name ← (jLookup j "name").bind jStr
  let description ← (jLookup j "description").bind jStr
  let status ← ((jLookup j "status").bind jStr).bind statusOfValue
  let duration_ms ← (jLookup j "duration_ms").bind jInt
  let details ← (jLookup j "details").bind jStr
  let url ← (jLookup j "url").bind jOptStr
  let timestamp ← (jLookup j "timestamp").bind jStr
  let error_message ← (jLookup j "error_message").bind jOptStr
  some { name := name, description := description, status := status,
         duration_ms := duration_ms, details := details, url := url,
         timestamp := timestamp, error_message := error_message }

/-- Parse a serialized `bundle_info` dict back. -/
def bundle_info_of_json (j : Json) : Option BundleInfo := do
  let name ← (jLookup j "name").bind jStr
  let description ← (jLookup j "description").bind jStr
  let category ← (jLookup j "category").bind jStr
  let icon ← (jLookup j "icon").bind jStr
  let version ← (jLookup j "version").bind jStr
  let test_count ← (jLookup j "test_count").bind jNat
  some { name := name, description := description, category := category,
         icon := icon, version := version, test_count := test_count }

/-- Parse a serialized statistics dict back. -/
def statistics_of_json (j : Json) : Option Statistics := do
  let total_tests ← (jLookup j "total_tests").bind jNat
  let passed ← (jLookup j "passed").bind jNat
  let failed ← (jLookup j "failed").bind jNat
  let skipped ← (jLookup j "skipped").bind jNat
  let pass_rate ← (jLookup j "pass_rate").bind jNum
  let total_duration_ms ← (jLookup j "total_duration_ms").bind jInt
  let execution_time_seconds ← (jLookup j "execution_time_seconds").bind jNum
  some { total_tests := total_tests, passed := passed, failed := failed,
         skipped := skipped, pass_rate := pass_rate,
         total_duration_ms := total_duration_ms,
         execution_time_seconds := execution_time_seconds }

/-- Parse the serialized results array back. -/
def results_of_json (j : Json) : Option (List TestResult) :=
  match j with
  | .arr items => items.mapM result_of_json
  | _ => none

/-- The 60-character `=` banner of the plain-text report. -/
def eqBanner : String := String.mk (List.replicate 60 '=')

/-- The per-result marker of the plain-text report (demo.py line 665):
`"✓ PASS" if result['status'] == 'passed' else "✗ FAIL"` (the marks appear
in the source as the mojibake three-character sequences reproduced here;
comparing the structured status to `.passed` is equivalent to comparing the
serialized `status` string to `'passed'` because `TestStatus.value` is
injective). -/
def text_status (s : TestStatus) : String :=
  if s = .passed then "âœ“ PASS" else "âœ— FAIL"

/-- `ReportGenerator.generate_text_report` (demo.py lines 644-672) as the
list of appended report segments (joined with newlines by
`generate_text_report`). -/
def generate_text_report_lines (tr : RunOutcome) : List String :=
  [eqBanner,
   "TEST REPORT: " ++ tr.bundle_info.name,
   eqBanner,
   "\n" ++ tr.bundle_info.description ++ "\n",
   "SUMMARY:",
   "  Total Tests: " ++ toString tr.statistics.total_tests,
   "  Passed: " ++ toString tr.statistics.passed,
   "  Failed: " ++ toString tr.statistics.failed,
   "  Pass Rate: " ++ pyFloatRepr tr.statistics.pass_rate ++ "%",
   "  Execution Time: " ++ pyFloatRepr tr.statistics.execution_time_seconds ++ "s\n",
   "TEST RESULTS:"]
  ++ (tr.results.map (fun result =>
       ["\n  " ++ text_status result.status ++ " - " ++ result.name,
        "    " ++ result.details,
        "    Duration: " ++ toString result.duration_ms ++ "ms"])).flatten
  ++ ["\n" ++ eqBanner]

/-- `ReportGenerator.generate_text_report` (demo.py lines 644-672). -/
def generate_text_report (tr : RunOutcome) : String :=
  String.intercalate "\n" (generate_text_report_lines tr)

/-- The per-result icon of the HTML report (demo.py line 633):
`'✓' if result['status'] == 'passed' else '✗'` (mojibake as in the
source). -/
def html_status_icon (s : TestStatus) : String :=
  if s = .passed then "âœ“" else "âœ—"

/-- One appended `<div>` block of the HTML report (demo.py lines 632-640). -/
def html_result_block (result : TestResult) : String :=
  "\n            <div>\n                <strong>" ++ html_status_icon result.status
    ++ " " ++ result.name ++ "</strong>\n                <p>" ++ result.details
    ++ "</p>\n                <small>Duration: " ++ toString result.duration_ms
    ++ "ms</small>\n            </div>\n            "

/-- `ReportGenerator.generate_html_summary` (demo.py lines 610-642). -/
def generate_html_summary (tr : RunOutcome) : String :=
  "\n        <h2>Test Report: " ++ tr.bundle_info.name ++ "</h2>\n        <p>"
    ++ tr.bundle_info.description ++ "</p>\n        \n        <h3>Summary</h3>\n        <ul>\n            <li>Total Tests: "
    ++ toString tr.statistics.total_tests ++ "</li>\n            <li>Passed: "
    ++ toString tr.statistics.passed ++ " âœ“</li>\n            <li>Failed: "
    ++ toString tr.statistics.failed ++ " âœ—</li>\n            <li>Pass Rate: "
    ++ pyFloatRepr tr.statistics.pass_rate ++ "%</li>\n            <li>Execution Time: "
    ++ pyFloatRepr tr.statistics.execution_time_seconds ++ "s</li>\n        </ul>\n        \n        <h3>Test Results</h3>\n        "
    ++ String.join (tr.results.map html_result_block)

/-- Accumulator walk over the characters of a text, collecting its maximal
whitespace-free runs (the chunks `textwrap` wraps). -/
def wordsAux (acc : List Char) : List Char → List (List Char)
  | [] => if acc.isEmpty then [] else [acc.reverse]
  | c :: cs =>
      if c.isWhitespace then
        if acc.isEmpty then wordsAux [] cs else acc.reverse :: wordsAux [] cs
      else wordsAux (c :: acc) cs

/-- The word list `textwrap` wraps: maximal whitespace-free runs of the
text. -/
def pyWords (s : String) : List String :=
  (wordsAux [] s.toList).map String.mk

/-- Splitting of an over-long word into `width`-sized pieces
(`textwrap`'s `break_long_words=True`), with the character count as
structural-recursion fuel: one piece of `width` characters is cut per
step, so `cs.length` steps always suffice. -/
def chunkFuel (width : Nat) : Nat → List Char → List (List Char)
  | 0, cs => [cs]
  | fuel + 1, cs =>
      if width = 0 ∨ cs.length ≤ width then [cs]
      else cs.take width :: chunkFuel width fuel (cs.drop width)

/-- Piece splitting of one word (`textwrap` rejects `width <= 0`; the
`width = 0` guard inside `chunkFuel` is never hit by the canvas renderer,
whose widths are 57-66). -/
def chunkList (width : Nat) (cs : List Char) : List (List Char) :=
  chunkFuel width cs.length cs

/-- `chunkList` on strings. -/
def chunkWord (width : Nat) (w : String) : List String :=
  (chunkList width w.toList).map String.mk

/-- The greedy fill loop of `textwrap.wrap`: `cur` is the line being built,
each further word joins it when it still fits with a separating space and
otherwise starts a new line. -/
def wrapGo (width : Nat) (cur : String) : List String → List String
  | [] => [cur]
  | w :: ws =>
      if cur.length + 1 + w.length ≤ width then wrapGo width (cur ++ " " ++ w) ws
      else cur :: wrapGo width w ws

/-- Model of Python `textwrap.wrap(text, width)`: whitespace-separated
words are greedily packed into lines of at most `width` characters, words
longer than `width` are broken into `width`-sized pieces, and
whitespace-only text gives no lines.  (Not modelled: `textwrap`'s
hyphen-aware breaking and its filling of a partially-used line with the
head of an over-long word; every property proved below is insensitive to
these.) -/
def pyWrap (width : Nat) (text : String) : List String :=
  match ((pyWords text).map (chunkWord width)).flatten with
  | [] => []
  | w :: ws => wrapGo width w ws

/-- CPython `str.center(width)`: the string is returned unchanged when it
is at least `width` long; otherwise the left margin is
`marg / 2 + (marg &&& width &&& 1)` (the CPython parity quirk). -/
def pyCenter (s : String) (width : Nat) : String :=
  if width ≤ s.length then s
  else
    let marg := width - s.length
    let left := marg / 2 + (marg &&& width &&& 1)
    String.mk (List.replicate left ' ') ++ s ++ String.mk (List.replicate (marg - left) ' ')

/-- Python `str.ljust(width)`. -/
def pyLjust (s : String) (width : Nat) : String :=
  if width ≤ s.length then s
  else s ++ String.mk (List.replicate (width - s.length) ' ')

/-- `width = 70` in `generate_canvas_report` (demo.py line 680). -/
def canvas_width : Nat := 70

/-- `border` (demo.py line 681): `"+" + "-" * 68 + "+"`. -/
def canvas_border : String :=
  "+" ++ String.mk (List.replicate (canvas_width - 2) '-') ++ "+"

/-- `center_line` (demo.py lines 683-684). -/
def center_line (text : String) : String :=
  "|" ++ pyCenter text (canvas_width - 2) ++ "|"

/-- `wrap_block` (demo.py lines 686-690). -/
def wrap_block (text : String) : List String :=
  let wrapped := pyWrap (canvas_width - 4) text
  let wrapped := if wrapped.isEmpty then [""] else wrapped
  wrapped.map (fun line => "| " ++ pyLjust line (canvas_width - 4) ++ " |")

/-- `wrap_lines` (demo.py lines 692-699): the first line carries the
prefix, continuation lines carry an equal-length space run. -/
def wrap_lines (pfx : String) (content : String) : List String :=
  match pyWrap (canvas_width - pfx.length - 3) content with
  | [] => ["| " ++ pfx ++ pyLjust "" (canvas_width - pfx.length - 3) ++ "|"]
  | first :: rest =>
      ("| " ++ pfx ++ pyLjust first (canvas_width - pfx.length - 3) ++ "|")
        :: rest.map (fun line =>
             "| " ++ String.mk (List.replicate pfx.length ' ')
               ++ pyLjust line (canvas_width - pfx.length - 3) ++ "|")

/-- The summary text of the canvas (demo.py lines 704-706). -/
def canvas_summary_text (stats : Statistics) : String :=
  "Total=" ++ toString stats.total_tests ++ " Passed=" ++ toString stats.passed
    ++ " Failed=" ++ toString stats.failed ++ " Skipped=" ++ toString stats.skipped
    ++ " PassRate=" ++ pyFloatRepr stats.pass_rate ++ "%"

/-- The duration text of the canvas (demo.py lines 707-708). -/
def canvas_duration_text (stats : Statistics) : String :=
  "Bundle execution " ++ pyFloatRepr stats.execution_time_seconds ++ "s / "
    ++ toString stats.total_duration_ms ++ "ms cumulative"

/-- The per-result marker of the canvas (demo.py line 712):
`"PASS" if status == 'passed' else "FAIL" if status == 'failed' else
"SKIP"`. -/
def canvas_status (s : TestStatus) : String :=
  if s = .passed then "PASS" else if s = .failed then "FAIL" else "SKIP"

/-- One result block of the canvas (demo.py lines 711-716).  The source
reads `result.get('url', 'n/a')`, but the dict built by
`TestResult.to_dict` always contains the key `'url'`, so for a result with
`url=None` the `.get` returns `None` (not the default `'n/a'`) and
`textwrap.wrap(None, ...)` raises `AttributeError`; `none` models that
crash. -/
def canvas_result_block (result : TestResult) : Option (List String) :=
  match result.url with
  | none => none
  | some u =>
      some ([center_line (canvas_status result.status ++ " â€¢ " ++ result.name)]
        ++ wrap_lines "Detail: " result.details
        ++ wrap_lines "Link: " u
        ++ [canvas_border])

/-- The lines the canvas accumulates before the per-result loop
(demo.py lines 701-709): border, centered title, wrapped description,
border, summary and duration blocks, border. -/
def canvas_head (tr : RunOutcome) : List String :=
  [canvas_border, center_line ("Test Canvas: " ++ tr.bundle_info.name)]
    ++ wrap_block tr.bundle_info.description ++ [canvas_border]
    ++ wrap_lines "Summary: " (canvas_summary_text tr.statistics)
    ++ wrap_lines "Duration: " (canvas_duration_text tr.statistics)
    ++ [canvas_border]

/-- The line list built by `ReportGenerator.generate_canvas_report`
(demo.py lines 674-718); `none` models the crash described at
`canvas_result_block`. -/
def canvas_lines (tr : RunOutcome) : Option (List String) :=
  (tr.results.mapM canvas_result_block).map (fun blocks => canvas_head tr ++ blocks.flatten)

/-- `ReportGenerator.generate_canvas_report` (demo.py lines 674-718). -/
def generate_canvas_report (tr : RunOutcome) : Option String :=
  (canvas_lines tr).map (String.intercalate "\n")

/-- The outcome `execute_bundle` records for one test case: the executor's
result, or the synthesized failure. -/
def case_outcome (b : TestBundle) (config : Config) (now : String) (test_case : TestCase) :
    TestResult :=
  match b.execute_test test_case config with
  | .ok result => result
  | .error e =>
      { name := test_case.name
        description := test_case.description
        status := .failed
        duration_ms := 0
        details := test_case.failure_message
        url := none
        timestamp := now
        error_message := some e }

theorem execute_cases_eq_map (b : TestBundle) (config : Config) (now : String)
    (cases : List TestCase) :
    execute_cases b config now cases = cases.map (case_outcome b config now) := by
  induction cases with
  | nil => rfl
  | cons tc rest ih =>
      simp only [execute_cases, List.map_cons, ih, case_outcome]

theorem execute_bundle_eq_map (b : TestBundle) (config : Config) (now : String) :
    execute_bundle b config now = b.get_test_cases.map (case_outcome b config now) :=
  execute_cases_eq_map b config now b.get_test_cases

theorem execute_bundle_length (b : TestBundle) (config : Config) (now : String) :
    (execute_bundle b config now).length = b.get_test_cases.length := by
  rw [execute_bundle_eq_map, List.length_map]

theorem run_bundle_ok_of_valid (reg : BundleRegistry) (bundle_id : String)
    (b : TestBundle) (config : Config) (now : String) (et : ℚ)
    (hb : get_bundle reg bundle_id = some b)
    (hv : (validate_config b config).1 = true) :
    run_bundle reg bundle_id config now et =
      .ok { bundle_info := get_bundle_info b
            config := config
            results := execute_bundle b config now
            statistics := calculate_statistics (execute_bundle b config now) et
            execution_time := et } := by
  unfold run_bundle
  rw [hb]
  simp only [hv, if_true]

/-- C1: for every resolvable bundle and validated configuration, `run_bundle`
returns an outcome with exactly one result per declared test case, in
definition order; the i-th result bears the i-th case's name whenever the
bundle's executor names its results after their case (results synthesized
for raising executors always do), and every bundle registered by the
source's registry bootstrap has such an executor. -/
theorem run_preserves_case_order :
    (∀ (reg : BundleRegistry) (bundle_id : String) (b : TestBundle) (config : Config)
        (now : String) (et : ℚ),
        get_bundle reg bundle_id = some b →
        (validate_config b config).1 = true →
        ∃ out, run_bundle reg bundle_id config now et = .ok out ∧
          out.results.length = b.get_test_cases.length ∧
          ((∀ tc r, b.execute_test tc config = .ok r → r.name = tc.name) →
            ∀ (i : Nat) (hi : i < out.results.length) (hc : i < b.get_test_cases.length),
              out.results[i].name = b.get_test_cases[i].name))
    ∧ (∀ (o : Oracle) (p : String × TestBundle), p ∈ default_registry o →
        ∀ (tc : TestCase) (config : Config) (r : TestResult),
          p.2.execute_test tc config = .ok r → r.name = tc.name) := by
  constructor
  · intro reg bundle_id b config now et hb hv
    refine ⟨_, run_bundle_ok_of_valid reg bundle_id b config now et hb hv, ?_, ?_⟩
    · exact execute_bundle_length b config now
    · intro hname i hi hc
      show (execute_bundle b config now)[i].name = _
      simp only [execute_bundle_eq_map, List.getElem_map]
      unfold case_outcome
      cases hex : b.execute_test b.get_test_cases[i] config with
      | ok r => exact hname _ r hex
      | error e => rfl
  · intro o p hp tc config r hr
    have hreg : default_registry o =
        [("e-commerce_checkout_flow", ecommerce_bundle o),
         ("form_validation_suite", form_validation_bundle o),
         ("api_health_checks", api_health_bundle o)] := rfl
    rw [hreg] at hp
    simp only [List.mem_cons, List.not_mem_nil, or_false] at hp
    rcases hp with rfl | rfl | rfl
    · cases hr
      rfl
    · cases hr
      rfl
    · cases hr
      rfl

/-- A fixed oracle for concrete evaluations: every stubbed check passes in
5ms. -/
def oracle0 : Oracle :=
  { shouldPass := fun _ => true, durationMs := fun _ => 5, now := "2024-01-01T00:00:00" }

theorem run_preserves_case_order_witness :
    (∃ out, run_bundle (default_registry oracle0) "form_validation_suite"
        [("base_url", PyVal.vStr "https://example.com")] "t" 0 = .ok out ∧
        out.results.length = (form_validation_bundle oracle0).get_test_cases.length) ∧
    (∃ r, (ecommerce_bundle oracle0).execute_test
        { name := "Homepage Load", description := "d", test_function := "f",
          success_message := "s", failure_message := "g" } [] = .ok r ∧
        r.name = "Homepage Load") := by
  constructor
  · obtain ⟨out, hok, hlen, -⟩ :=
      run_preserves_case_order.1 (default_registry oracle0) "form_validation_suite"
        (form_validation_bundle oracle0) [("base_url", PyVal.vStr "https://example.com")]
        "t" 0 rfl rfl
    exact ⟨out, hok, hlen⟩
  · refine ⟨_, rfl, ?_⟩
    exact run_preserves_case_order.2 oracle0
      ("e-commerce_checkout_flow", ecommerce_bundle oracle0) (List.Mem.head _)
      _ [] _ rfl

/-- A bundle whose executor always raises, for concrete evaluations of the
error path. -/
def boom_case : TestCase :=
  { name := "Boom", description := "always raises", test_function := "boom",
    success_message := "ok", failure_message := "exploded" }

/-- See `boom_case`. -/
def boom_bundle : TestBundle :=
  { get_config_schema := []
    get_test_cases := [boom_case]
    execute_test := fun _ _ => .error "boom" }

/-- C2: a case whose executor raises yields, at that case's position, a
synthesized result with `status=failed`, `durationMs=0`,
`details=failureMessage`, `errorMessage=<captured text>`; the run still has
one result per case establishment and the failure never surfaces:
`run_bundle` still returns a complete outcome. -/
theorem case_failure_isolated :
    ∀ (b : TestBundle) (config : Config) (now : String) (i : Nat) (tc : TestCase) (e : String),
      b.get_test_cases[i]? = some tc →
      b.execute_test tc config = .error e →
      (execute_bundle b config now).length = b.get_test_cases.length ∧
      (execute_bundle b config now)[i]? = some
        { name := tc.name, description := tc.description, status := .failed,
          duration_ms := 0, details := tc.failure_message, url := none,
          timestamp := now, error_message := some e } ∧
      (∀ (reg : BundleRegistry) (bundle_id : String) (et : ℚ),
        get_bundle reg bundle_id = some b → (validate_config b config).1 = true →
        ∃ out, run_bundle reg bundle_id config now et = .ok out ∧
          out.results = execute_bundle b config now) := by
  intro b config now i tc e htc hex
  refine ⟨execute_bundle_length b config now, ?_, ?_⟩
  · rw [execute_bundle_eq_map, List.getElem?_map, htc]
    show some _ = some _
    unfold case_outcome
    rw [hex]
  · intro reg bundle_id et hb hv
    exact ⟨_, run_bundle_ok_of_valid reg bundle_id b config now et hb hv, rfl⟩

theorem case_failure_isolated_witness :
    (execute_bundle boom_bundle [] "t").length = boom_bundle.get_test_cases.length ∧
    (execute_bundle boom_bundle [] "t")[0]? = some
      { name := "Boom", description := "always raises", status := .failed,
        duration_ms := 0, details := "exploded", url := none,
        timestamp := "t", error_message := some "boom" } ∧
    (∃ out, run_bundle [("boom", boom_bundle)] "boom" [] "t" 0 = .ok out ∧
      out.results = execute_bundle boom_bundle [] "t") := by
  obtain ⟨h1, h2, h3⟩ := case_failure_isolated boom_bundle [] "t" 0 boom_case "boom" rfl rfl
  exact ⟨h1, h2, h3 [("boom", boom_bundle)] "boom" 0 rfl rfl⟩

/-- C5 (support): the orchestration wraps no `executeOne` call in a
timeout — `execute_bundle` only ever passes through the executor's own
results and error texts, so no result with `errorMessage="timeout"` can
appear unless the executor itself produced that text.  (The declared
`timeout_seconds` budget of a `TestCase` is never read by
`execute_bundle`.) -/
theorem no_timeout_synthesis :
    ∀ (b : TestBundle) (config : Config) (now : String),
      (∀ tc e, b.execute_test tc config = .error e → e ≠ "timeout") →
      (∀ tc r, b.execute_test tc config = .ok r → r.error_message ≠ some "timeout") →
      ∀ r ∈ execute_bundle b config now, r.error_message ≠ some "timeout" := by
  intro b config now herr hok r hr
  rw [execute_bundle_eq_map] at hr
  obtain ⟨tc, -, rfl⟩ := List.mem_map.mp hr
  unfold case_outcome
  cases hex : b.execute_test tc config with
  | ok res => exact hok tc res hex
  | error e =>
      intro hcontra
      exact herr tc e hex (by injection hcontra)

theorem no_timeout_synthesis_witness :
    ¬ ∃ r, r ∈ execute_bundle boom_bundle [] "t" ∧ r.error_message = some "timeout" := by
  rintro ⟨r, hr, he⟩
  refine no_timeout_synthesis boom_bundle [] "t" ?_ ?_ r hr he
  · intro tc e h
    injection h with h
    rw [← h]
    decide
  · intro tc r h
    cases h

/-- The first schema field `validate_config` rejects for a given
configuration: required and with a missing/falsy value, first in schema
insertion order. -/
def first_missing_field (schema : List (String × ConfigField)) (config : Config) :
    Option ConfigField :=
  (schema.find? (fun p => p.2.required && !(pyTruthyOpt (pyDictGet config p.1)))).map
    (fun p => p.2)

theorem validate_fields_spec (config : Config) (schema : List (String × ConfigField)) :
    validate_fields config schema =
      match first_missing_field schema config with
      | some f => (false, some ("Required field '" ++ f.label ++ "' is missing"))
      | none => (true, none) := by
  induction schema with
  | nil => rfl
  | cons p rest ih =>
      obtain ⟨field_name, field_schema⟩ := p
      unfold validate_fields
      by_cases h : (field_schema.required && !(pyTruthyOpt (pyDictGet config field_name))) = true
      · rw [if_pos h]
        unfold first_missing_field
        simp only [List.find?_cons]
        simp [h]
      · rw [if_neg h]
        rw [ih]
        unfold first_missing_field
        simp only [List.find?_cons]
        have hb : (field_schema.required && !(pyTruthyOpt (pyDictGet config field_name))) = false := by
          simpa using h
        simp [hb]

/-- C3: `run_bundle` fails exactly when the bundle id is unknown (with the
`Bundle '<id>' not found` message) or a required field is missing/falsy
(with `Invalid configuration: Required field '<label>' is missing` for the
first such field in schema order); otherwise it returns a complete outcome
with one result per case.  Both failures happen before any case executes
(an `.error` run produces no results at all). -/
theorem run_error_characterization :
    ∀ (reg : BundleRegistry) (bundle_id : String) (config : Config) (now : String) (et : ℚ),
      (get_bundle reg bundle_id = none →
        run_bundle reg bundle_id config now et =
          .error ("Bundle '" ++ bundle_id ++ "' not found")) ∧
      (∀ b, get_bundle reg bundle_id = some b →
        (∀ f, first_missing_field b.get_config_schema config = some f →
          run_bundle reg bundle_id config now et =
            .error ("Invalid configuration: Required field '" ++ f.label ++ "' is missing")) ∧
        (first_missing_field b.get_config_schema config = none →
          ∃ out, run_bundle reg bundle_id config now et = .ok out ∧
            out.results.length = b.get_test_cases.length)) := by
  intro reg bundle_id config now et
  constructor
  · intro h
    unfold run_bundle
    rw [h]
  · intro b hb
    have hv := validate_fields_spec config b.get_config_schema
    constructor
    · intro f hf
      rw [hf] at hv
      have hveq : validate_config b config =
          (false, some ("Required field '" ++ f.label ++ "' is missing")) := hv
      unfold run_bundle
      rw [hb]
      simp only [hveq]
      rfl
    · intro hnone
      rw [hnone] at hv
      have hveq : validate_config b config = (true, none) := hv
      have hv1 : (validate_config b config).1 = true := by rw [hveq]
      exact ⟨_, run_bundle_ok_of_valid reg bundle_id b config now et hb hv1,
        execute_bundle_length b config now⟩

theorem run_error_characterization_witness :
    run_bundle (default_registry oracle0) "does_not_exist" [] "t" 0 =
      .error ("Bundle 'does_not_exist' not found") ∧
    run_bundle (default_registry oracle0) "api_health_checks" [] "t" 0 =
      .error ("Invalid configuration: Required field 'API Base URL' is missing") ∧
    (∃ out, run_bundle (default_registry oracle0) "api_health_checks"
        [("base_url", PyVal.vStr "https://api.example.com")] "t" 0 = .ok out ∧
      out.results.length = (api_health_bundle oracle0).get_test_cases.length) := by
  refine ⟨(run_error_characterization (default_registry oracle0) "does_not_exist" [] "t" 0).1 rfl,
    ?_, ?_⟩
  · exact ((run_error_characterization (default_registry oracle0) "api_health_checks" [] "t" 0).2
      (api_health_bundle oracle0) rfl).1
      { field_type := "url", label := "API Base URL", required := true,
        default := some (.vStr "https://api.example.com"),
        help_text := some "The base URL of the API to test" } rfl
  · exact ((run_error_characterization (default_registry oracle0) "api_health_checks"
      [("base_url", PyVal.vStr "https://api.example.com")] "t" 0).2
      (api_health_bundle oracle0) rfl).2 rfl

theorem pyRound2_zero : pyRound2 0 = 0 := by
  unfold pyRound2 pyRoundHalfEven
  norm_num

theorem countP_status_sum (results : List TestResult)
    (h : ∀ r ∈ results, r.status = .passed ∨ r.status = .failed ∨ r.status = .skipped) :
    results.countP (fun r => decide (r.status = TestStatus.passed)) +
      results.countP (fun r => decide (r.status = TestStatus.failed)) +
      results.countP (fun r => decide (r.status = TestStatus.skipped)) = results.length := by
  induction results with
  | nil => rfl
  | cons r rest ih =>
      simp only [List.countP_cons, List.length_cons]
      have hr := h r (List.mem_cons_self r rest)
      have hrest := ih (fun x hx => h x (List.mem_cons_of_mem r hx))
      rcases hr with h1 | h1 | h1 <;> simp [h1] <;> omega

/-- A result stuck in a non-terminal state, as an executor may return it. -/
def pending_result : TestResult :=
  { name := "n", description := "d", status := .pending, duration_ms := 1,
    details := "x", url := none, timestamp := "t", error_message := none }

/-- C4 counterexample: for a results list containing a `pending` result the
claimed invariant `passed + failed + skipped = total` fails —
`_calculate_statistics` counts only the three terminal statuses, while
`total` is the full list length. -/
theorem statistics_pending_sum_counterexample :
    (calculate_statistics [pending_result] 0).passed +
      (calculate_statistics [pending_result] 0).failed +
      (calculate_statistics [pending_result] 0).skipped ≠
      (calculate_statistics [pending_result] 0).total_tests := by
  decide

/-- C4 (amended): for every results list whose entries all carry a terminal
status (`passed`, `failed` or `skipped` — a `pending`/`running` result is
counted in `total` but in none of the three buckets),
`passed + failed + skipped = total` with `total` the list length; the pass
rate is `0` for an empty list and `round(passed/total*100, 2)` otherwise;
and `total_duration_ms` is the sum of the results' durations. -/
theorem statistics_invariants :
    ∀ (results : List TestResult) (execution_time : ℚ),
      (∀ r ∈ results, r.status = .passed ∨ r.status = .failed ∨ r.status = .skipped) →
      (calculate_statistics results execution_time).passed +
          (calculate_statistics results execution_time).failed +
          (calculate_statistics results execution_time).skipped =
          (calculate_statistics results execution_time).total_tests ∧
        (calculate_statistics results execution_time).total_tests = results.length ∧
        ((calculate_statistics results execution_time).total_tests = 0 →
          (calculate_statistics results execution_time).pass_rate = 0) ∧
        (0 < (calculate_statistics results execution_time).total_tests →
          (calculate_statistics results execution_time).pass_rate =
            pyRound2 (((calculate_statistics results execution_time).passed : ℚ) /
              ((calculate_statistics results execution_time).total_tests : ℚ) * 100)) ∧
        (calculate_statistics results execution_time).total_duration_ms =
          (results.map (fun r => r.duration_ms)).sum := by
  intro results execution_time h
  refine ⟨countP_status_sum results h, rfl, ?_, ?_, rfl⟩
  · intro h0
    have hlen : results.length = 0 := h0
    simp only [calculate_statistics, hlen]
    norm_num [pyRound2_zero]
  · intro h0
    have hlen : 0 < results.length := h0
    simp only [calculate_statistics, hlen, if_pos]

theorem statistics_invariants_witness :
    (calculate_statistics
        [{ name := "n", description := "d", status := .passed, duration_ms := 7,
           details := "x", url := some "u", timestamp := "t", error_message := none }] 0).passed +
      (calculate_statistics
        [{ name := "n", description := "d", status := .passed, duration_ms := 7,
           details := "x", url := some "u", timestamp := "t", error_message := none }] 0).failed +
      (calculate_statistics
        [{ name := "n", description := "d", status := .passed, duration_ms := 7,
           details := "x", url := some "u", timestamp := "t", error_message := none }] 0).skipped =
      (calculate_statistics
        [{ name := "n", description := "d", status := .passed, duration_ms := 7,
           details := "x", url := some "u", timestamp := "t", error_message := none }] 0).total_tests ∧
    (calculate_statistics
        [{ name := "n", description := "d", status := .passed, duration_ms := 7,
           details := "x", url := some "u", timestamp := "t", error_message := none }] 0).total_duration_ms = 7 := by
  refine ⟨(statistics_invariants
    [{ name := "n", description := "d", status := .passed, duration_ms := 7,
       details := "x", url := some "u", timestamp := "t", error_message := none }] 0
    (by decide)).1, ?_⟩
  decide

theorem find_map_replace {α : Type} (d : List (String × α)) (k : String) (v : α)
    (h : d.any (fun p => p.1 == k) = true) :
    (d.map (fun p => if p.1 == k then (k, v) else p)).find? (fun p => p.1 == k) =
      some (k, v) := by
  induction d with
  | nil => simp at h
  | cons p rest ih =>
      simp only [List.map_cons, List.find?_cons]
      by_cases hp : (p.1 == k) = true
      · rw [if_pos hp]
        simp
      · rw [if_neg hp]
        have hrest : rest.any (fun p => p.1 == k) = true := by
          simp only [List.any_cons, hp, Bool.false_or] at h
          exact h
        simp only [hp]
        exact ih hrest

theorem find_append_self {α : Type} (d : List (String × α)) (k : String) (v : α)
    (h : d.any (fun p => p.1 == k) = false) :
    (d ++ [(k, v)]).find? (fun p => p.1 == k) = some (k, v) := by
  induction d with
  | nil => simp
  | cons p rest ih =>
      simp only [List.any_cons, Bool.or_eq_false_iff] at h
      simp only [List.cons_append, List.find?_cons, h.1]
      exact ih h.2

theorem pyDictGet_set {α : Type} (d : List (String × α)) (k : String) (v : α) :
    pyDictGet (pyDictSet d k v) k = some v := by
  unfold pyDictSet pyDictGet
  by_cases h : d.any (fun p => p.1 == k) = true
  · rw [if_pos h, find_map_replace d k v h]
    rfl
  · rw [if_neg h, find_append_self d k v (Bool.eq_false_iff.mpr h)]
    rfl

/-- C8: `register_bundle` stores every bundle under the id derived from its
name (lower-cased, spaces replaced by underscores), and a second
registration whose name normalizes to the same id silently overwrites the
first: looking up that id afterwards returns the later-registered bundle. -/
theorem register_overwrite_semantics :
    (∀ (reg : BundleRegistry) (b : TestBundle),
      get_bundle (register_bundle reg b) (bundle_id_of_name b.name) = some b) ∧
    (∀ (reg : BundleRegistry) (b1 b2 : TestBundle),
      bundle_id_of_name b1.name = bundle_id_of_name b2.name →
      get_bundle (register_bundle (register_bundle reg b1) b2)
        (bundle_id_of_name b2.name) = some b2) := by
  constructor
  · intro reg b
    exact pyDictGet_set reg (bundle_id_of_name b.name) b
  · intro reg b1 b2 hcol
    exact pyDictGet_set (register_bundle reg b1) (bundle_id_of_name b2.name) b2

/-- A first bundle whose name collides, after normalization, with
`collider_bundle`. -/
def collidee_bundle : TestBundle :=
  { name := "Form Validation Suite", description := "first",
    get_config_schema := [], get_test_cases := [],
    execute_test := fun _ _ => .error "na" }

/-- A second bundle normalizing to the same id as `collidee_bundle`. -/
def collider_bundle : TestBundle :=
  { name := "FORM Validation Suite", description := "second",
    get_config_schema := [], get_test_cases := [],
    execute_test := fun _ _ => .error "na" }

theorem register_overwrite_semantics_witness :
    get_bundle (register_bundle [] collidee_bundle) "form_validation_suite" =
      some collidee_bundle ∧
    get_bundle (register_bundle (register_bundle [] collidee_bundle) collider_bundle)
      "form_validation_suite" = some collider_bundle := by
  constructor
  · exact register_overwrite_semantics.1 [] collidee_bundle
  · exact register_overwrite_semantics.2 [] collidee_bundle collider_bundle rfl

theorem jInt_intCast (n : Int) : jInt (.num (n : ℚ)) = some n := by
  simp [jInt]

theorem jNat_natCast (n : Nat) : jNat (.num (n : ℚ)) = some n := by
  simp [jNat]

theorem statusOfValue_value (s : TestStatus) : statusOfValue s.value = some s := by
  cases s <;> rfl

theorem result_roundtrip (r : TestResult) :
    result_of_json (TestResult.to_dict r) = some r := by
  obtain ⟨name, description, status, dm, details, url, ts, em⟩ := r
  unfold result_of_json TestResult.to_dict
  cases url <;> cases em <;>
    simp [jLookup, pyDictGet, jStr, jOptStr, jsonOfOptStr, jInt_intCast, statusOfValue_value]

theorem results_roundtrip (rs : List TestResult) :
    results_of_json (.arr (rs.map TestResult.to_dict)) = some rs := by
  unfold results_of_json
  induction rs with
  | nil => rfl
  | cons r rest ih =>
      simp only [List.map_cons, List.mapM_cons, result_roundtrip]
      simp only [List.map_map] at ih ⊢
      rw [ih]
      rfl

theorem bundle_info_roundtrip (bi : BundleInfo) :
    bundle_info_of_json (bundle_info_to_json bi) = some bi := by
  obtain ⟨name, description, category, icon, version, tc⟩ := bi
  unfold bundle_info_of_json bundle_info_to_json
  simp [jLookup, pyDictGet, jStr, jNat_natCast]

theorem statistics_roundtrip (s : Statistics) :
    statistics_of_json (statistics_to_json s) = some s := by
  obtain ⟨t, p, f, sk, pr, td, ets⟩ := s
  unfold statistics_of_json statistics_to_json
  simp [jLookup, pyDictGet, jNum, jNat_natCast, jInt_intCast]

/-- C9: extracting the `bundle_info`, `statistics` and `results` components
of the serialized run outcome and parsing them back yields structures
field-for-field identical to the originals. -/
theorem json_roundtrip_components :
    ∀ tr : RunOutcome,
      (jLookup (generate_json_report tr) "bundle_info").bind bundle_info_of_json =
        some tr.bundle_info ∧
      (jLookup (generate_json_report tr) "statistics").bind statistics_of_json =
        some tr.statistics ∧
      (jLookup (generate_json_report tr) "results").bind results_of_json =
        some tr.results := by
  intro tr
  refine ⟨?_, ?_, ?_⟩
  · exact bundle_info_roundtrip tr.bundle_info
  · exact statistics_roundtrip tr.statistics
  · exact results_roundtrip tr.results

/-- C10: the plain-text and HTML reports render the pass marker exactly for
status `passed` and the fail marker for every other status, `skipped`
included; only the canvas marker distinguishes `skipped` with `SKIP`; and
the text report really renders one marker line per result. -/
theorem report_pass_marker_iff :
    (∀ s : TestStatus, text_status s = "âœ“ PASS" ↔ s = .passed) ∧
    (∀ s : TestStatus, html_status_icon s = "âœ“" ↔ s = .passed) ∧
    text_status .skipped = "âœ— FAIL" ∧
    html_status_icon .skipped = "âœ—" ∧
    canvas_status .skipped = "SKIP" ∧
    (∀ (tr : RunOutcome), ∀ r ∈ tr.results,
      ("\n  " ++ text_status r.status ++ " - " ++ r.name) ∈ generate_text_report_lines tr) := by
  refine ⟨?_, ?_, by decide, by decide, by decide, ?_⟩
  · intro s
    cases s <;> decide
  · intro s
    cases s <;> decide
  · intro tr r hr
    unfold generate_text_report_lines
    refine List.mem_append_left _ (List.mem_append_right _ ?_)
    refine List.mem_flatten.mpr ⟨_, List.mem_map_of_mem _ hr, ?_⟩
    exact List.mem_cons_self _ _

/-- A result with `skipped` status, for concrete report evaluation. -/
def skipped_result : TestResult :=
  { name := "Skip case", description := "d", status := .skipped, duration_ms := 3,
    details := "skipped it", url := some "u", timestamp := "t", error_message := none }

/-- A small concrete outcome for report evaluation. -/
def report_outcome : RunOutcome :=
  { bundle_info := { name := "B", description := "D", category := "c", icon := "i",
                     version := "1.0.0", test_count := 1 }
    config := []
    results := [skipped_result]
    statistics := { total_tests := 1, passed := 0, failed := 0, skipped := 1,
                    pass_rate := 0, total_duration_ms := 3, execution_time_seconds := 0 }
    execution_time := 0 }

theorem report_pass_marker_iff_witness :
    ("\n  " ++ text_status skipped_result.status ++ " - " ++ skipped_result.name) ∈
      generate_text_report_lines report_outcome := by
  exact report_pass_marker_iff.2.2.2.2.2 report_outcome skipped_result
    (List.mem_cons_self _ _)

theorem length_mk (cs : List Char) : (String.mk cs).length = cs.length := rfl

theorem chunkFuel_ne_nil (width fuel : Nat) (cs : List Char) :
    chunkFuel width fuel cs ≠ [] := by
  cases fuel with
  | zero => simp [chunkFuel]
  | succ n =>
      unfold chunkFuel
      by_cases h : width = 0 ∨ cs.length ≤ width
      · rw [if_pos h]
        simp
      · rw [if_neg h]
        simp

theorem chunkFuel_flatten (width fuel : Nat) (cs : List Char) :
    (chunkFuel width fuel cs).flatten = cs := by
  induction fuel generalizing cs with
  | zero => simp [chunkFuel]
  | succ n ih =>
      unfold chunkFuel
      by_cases h : width = 0 ∨ cs.length ≤ width
      · rw [if_pos h]
        simp
      · rw [if_neg h]
        simp only [List.flatten_cons, ih]
        exact List.take_append_drop width cs

theorem chunkFuel_piece_le (width fuel : Nat) (cs : List Char) (hw : 0 < width)
    (hf : cs.length ≤ fuel) : ∀ p ∈ chunkFuel width fuel cs, p.length ≤ width := by
  induction fuel generalizing cs with
  | zero =>
      intro p hp
      simp only [chunkFuel, List.mem_singleton] at hp
      subst hp
      omega
  | succ n ih =>
      intro p hp
      unfold chunkFuel at hp
      by_cases h : width = 0 ∨ cs.length ≤ width
      · rw [if_pos h] at hp
        simp only [List.mem_singleton] at hp
        subst hp
        rcases h with h | h
        · omega
        · exact h
      · rw [if_neg h] at hp
        push_neg at h
        rcases List.mem_cons.mp hp with rfl | hp
        · rw [List.length_take]
          omega
        · exact ih (cs.drop width) (by rw [List.length_drop]; omega) p hp

theorem chunkWord_ne_nil (width : Nat) (w : String) : chunkWord width w ≠ [] := by
  unfold chunkWord chunkList
  intro h
  exact chunkFuel_ne_nil _ _ _ (List.map_eq_nil_iff.mp h)

theorem chunkWord_piece_le (width : Nat) (w : String) (hw : 0 < width) :
    ∀ p ∈ chunkWord width w, p.length ≤ width := by
  intro p hp
  unfold chunkWord chunkList at hp
  obtain ⟨cs, hcs, rfl⟩ := List.mem_map.mp hp
  rw [length_mk]
  exact chunkFuel_piece_le _ _ _ hw (le_refl _) cs hcs

theorem chunkWord_sum (width : Nat) (w : String) :
    ((chunkWord width w).map String.length).sum = w.length := by
  unfold chunkWord chunkList
  rw [List.map_map]
  have hcomp : (String.length ∘ String.mk) = List.length := rfl
  rw [hcomp, ← List.length_flatten, chunkFuel_flatten]
  rfl

/-- The words of a line joined by single separating spaces. -/
def joinSp : List String → String
  | [] => ""
  | [w] => w
  | w :: ws => w ++ " " ++ joinSp ws

theorem joinSp_cons_cons (w x : String) (ws : List String) :
    joinSp (w :: x :: ws) = w ++ " " ++ joinSp (x :: ws) := rfl

theorem joinSp_glue (a b : String) (ws : List String) :
    joinSp ((a ++ " " ++ b) :: ws) = a ++ " " ++ joinSp (b :: ws) := by
  cases ws with
  | nil => rfl
  | cons x xs =>
      rw [joinSp_cons_cons, joinSp_cons_cons]
      simp [String.append_assoc]

theorem joinSp_length (ws : List String) (h : ws ≠ []) :
    (joinSp ws).length = (ws.map String.length).sum + ws.length - 1 := by
  induction ws with
  | nil => contradiction
  | cons w ws ih =>
      cases ws with
      | nil => simp [joinSp]
      | cons x xs =>
          rw [joinSp_cons_cons, String.length_append, String.length_append,
            ih (by simp)]
          have hsp : (" " : String).length = 1 := rfl
          rw [hsp]
          simp only [List.map_cons, List.sum_cons, List.length_cons]
          omega

theorem wrapGo_ne_nil (width : Nat) (cur : String) (ws : List String) :
    wrapGo width cur ws ≠ [] := by
  induction ws generalizing cur with
  | nil => simp [wrapGo]
  | cons w ws ih =>
      unfold wrapGo
      by_cases h : cur.length + 1 + w.length ≤ width
      · rw [if_pos h]
        exact ih _
      · rw [if_neg h]
        simp

theorem wrapGo_le (width : Nat) (cur : String) (ws : List String)
    (hcur : cur.length ≤ width) (hws : ∀ w ∈ ws, w.length ≤ width) :
    ∀ l ∈ wrapGo width cur ws, l.length ≤ width := by
  induction ws generalizing cur with
  | nil =>
      intro l hl
      simp only [wrapGo, List.mem_singleton] at hl
      subst hl
      exact hcur
  | cons w ws ih =>
      intro l hl
      unfold wrapGo at hl
      by_cases h : cur.length + 1 + w.length ≤ width
      · rw [if_pos h] at hl
        refine ih (cur ++ " " ++ w) ?_ (fun x hx => hws x (List.mem_cons_of_mem _ hx)) l hl
        rw [String.length_append, String.length_append]
        have hsp : (" " : String).length = 1 := rfl
        rw [hsp]
        omega
      · rw [if_neg h] at hl
        rcases List.mem_cons.mp hl with rfl | hl
        · exact hcur
        · exact ih w (hws w (List.mem_cons_self _ _))
            (fun x hx => hws x (List.mem_cons_of_mem _ hx)) l hl

theorem wrapGo_single (width : Nat) (cur : String) (ws : List String) (l : String)
    (h : wrapGo width cur ws = [l]) : l = joinSp (cur :: ws) := by
  induction ws generalizing cur with
  | nil =>
      simp only [wrapGo, List.cons.injEq, and_true] at h
      rw [← h]
      rfl
  | cons w ws ih =>
      unfold wrapGo at h
      by_cases hc : cur.length + 1 + w.length ≤ width
      · rw [if_pos hc] at h
        rw [joinSp_cons_cons, ← joinSp_glue]
        exact ih (cur ++ " " ++ w) h
      · rw [if_neg hc] at h
        injection h with h1 h2
        exact absurd h2 (wrapGo_ne_nil width w ws)

theorem pyWrap_le (width : Nat) (s : String) (hw : 0 < width) :
    ∀ l ∈ pyWrap width s, l.length ≤ width := by
  intro l hl
  unfold pyWrap at hl
  have hall : ∀ p ∈ ((pyWords s).map (chunkWord width)).flatten, p.length ≤ width := by
    intro p hp
    obtain ⟨chunks, hc, hpc⟩ := List.mem_flatten.mp hp
    obtain ⟨word, hwd, rfl⟩ := List.mem_map.mp hc
    exact chunkWord_piece_le width word hw p hpc
  rcases hE : ((pyWords s).map (chunkWord width)).flatten with _ | ⟨w, ws⟩
  · rw [hE] at hl
    simp at hl
  · rw [hE] at hl
    rw [hE] at hall
    exact wrapGo_le width w ws (hall w (List.mem_cons_self _ _))
      (fun x hx => hall x (List.mem_cons_of_mem _ hx)) l hl

/-- The text is exactly its words joined by single spaces: no leading,
trailing or repeated whitespace (the shape under which `textwrap`'s
whitespace normalization is the identity). -/
def cleanText (s : String) : Prop := joinSp (pyWords s) = s

theorem flatten_length_ge (L : List (List String)) (h : ∀ x ∈ L, x ≠ []) :
    L.length ≤ L.flatten.length := by
  induction L with
  | nil => simp
  | cons x xs ih =>
      simp only [List.flatten_cons, List.length_append, List.length_cons]
      have hx : 0 < x.length := List.length_pos.mpr (h x (List.mem_cons_self _ _))
      have hxs := ih (fun y hy => h y (List.mem_cons_of_mem _ hy))
      omega

theorem flatten_chunk_sum (width : Nat) (words : List String) :
    ((words.map (chunkWord width)).flatten.map String.length).sum =
      (words.map String.length).sum := by
  induction words with
  | nil => rfl
  | cons w ws ih =>
      simp only [List.map_cons, List.flatten_cons, List.map_append, List.sum_append,
        List.sum_cons, ih, chunkWord_sum]

theorem flatten_chunk_count (width : Nat) (words : List String) :
    words.length ≤ (words.map (chunkWord width)).flatten.length := by
  have h1 : (words.map (chunkWord width)).length ≤
      (words.map (chunkWord width)).flatten.length := by
    refine flatten_length_ge _ ?_
    intro x hx
    obtain ⟨w, hw, rfl⟩ := List.mem_map.mp hx
    exact chunkWord_ne_nil width w
  rw [List.length_map] at h1
  exact h1

theorem pyWrap_multiline (width : Nat) (s : String) (hw : 0 < width)
    (hclean : cleanText s) (hlong : width < s.length) :
    2 ≤ (pyWrap width s).length := by
  by_contra hcon
  push_neg at hcon
  rcases hres : pyWrap width s with _ | ⟨l, rest⟩
  · -- no lines at all: then there are no words, so the clean text is empty
    unfold pyWrap at hres
    rcases hE : ((pyWords s).map (chunkWord width)).flatten with _ | ⟨w, ws⟩
    · have hwords : pyWords s = [] := by
        rcases hW : pyWords s with _ | ⟨w0, ws0⟩
        · rfl
        · exfalso
          have hmem : chunkWord width w0 ∈ (pyWords s).map (chunkWord width) := by
            rw [hW]
            exact List.mem_map_of_mem _ (List.mem_cons_self _ _)
          exact chunkWord_ne_nil width w0 (List.flatten_eq_nil_iff.mp hE _ hmem)
      have hse : s = "" := by
        rw [← hclean, hwords]
        rfl
      rw [hse] at hlong
      have h0 : ("" : String).length = 0 := rfl
      omega
    · rw [hE] at hres
      exact absurd hres (wrapGo_ne_nil width w ws)
  · -- exactly one line: it reconstructs the whole clean text, too long to fit
    have hrest : rest = [] := by
      rw [hres] at hcon
      simp only [List.length_cons] at hcon
      exact List.length_eq_zero.mp (by omega)
    subst hrest
    have hresmem : l ∈ pyWrap width s := by
      rw [hres]
      exact List.mem_cons_self _ _
    have hle : l.length ≤ width := pyWrap_le width s hw l hresmem
    unfold pyWrap at hres
    rcases hE : ((pyWords s).map (chunkWord width)).flatten with _ | ⟨w, ws⟩
    · rw [hE] at hres
      cases hres
    · rw [hE] at hres
      have hjoin := wrapGo_single width w ws l hres
      have hwne : pyWords s ≠ [] := by
        intro h0
        rw [h0] at hE
        cases hE
      have hl1 : l.length = ((w :: ws).map String.length).sum + (w :: ws).length - 1 := by
        rw [hjoin]
        exact joinSp_length _ (by simp)
      have hs : s.length = ((pyWords s).map String.length).sum + (pyWords s).length - 1 := by
        conv_lhs => rw [← hclean]
        exact joinSp_length _ hwne
      have hsum : ((w :: ws).map String.length).sum = ((pyWords s).map String.length).sum := by
        rw [← hE]
        exact flatten_chunk_sum width (pyWords s)
      have hcount : (pyWords s).length ≤ (w :: ws).length := by
        rw [← hE]
        exact flatten_chunk_count width (pyWords s)
      have hpos : 0 < (pyWords s).length := List.length_pos.mpr hwne
      simp only [List.length_cons] at hl1 hcount
      omega

theorem pyLjust_length (s : String) (w : Nat) (h : s.length ≤ w) :
    (pyLjust s w).length = w := by
  unfold pyLjust
  by_cases hw : w ≤ s.length
  · rw [if_pos hw]
    omega
  · rw [if_neg hw]
    simp only [String.length_append, length_mk, List.length_replicate]
    omega

theorem canvas_border_length : canvas_border.length = 70 := by decide

theorem center_line_length (text : String) (h : text.length ≤ 68) :
    (center_line text).length = 70 := by
  have hbar : ("|" : String).length = 1 := rfl
  have hcw : canvas_width - 2 = 68 := rfl
  unfold center_line pyCenter
  rw [hcw]
  by_cases hc : 68 ≤ text.length
  · rw [if_pos hc, String.length_append, String.length_append, hbar]
    omega
  · rw [if_neg hc]
    simp only [String.length_append, length_mk, List.length_replicate, hbar]
    have hand : (68 - text.length) &&& 68 &&& 1 = 0 := by
      rw [Nat.and_assoc]
      have h681 : (68 : Nat) &&& 1 = 0 := by decide
      rw [h681]
      exact Nat.and_zero _
    rw [hand]
    have hdiv : (68 - text.length) / 2 ≤ 68 - text.length := Nat.div_le_self _ _
    omega

theorem wrap_block_line_length (text : String) :
    ∀ l ∈ wrap_block text, l.length = 70 := by
  intro l hl
  unfold wrap_block at hl
  obtain ⟨line, hline, rfl⟩ := List.mem_map.mp hl
  have hle : line.length ≤ canvas_width - 4 := by
    split at hline
    · simp only [List.mem_singleton] at hline
      subst hline
      decide
    · exact pyWrap_le (canvas_width - 4) text (by decide) line hline
  have hcw : canvas_width - 4 = 66 := rfl
  rw [String.length_append, String.length_append, pyLjust_length line (canvas_width - 4) hle,
    hcw]
  decide

theorem wrap_lines_line_length (pfx content : String) (h4 : pfx.length + 4 ≤ 70) :
    ∀ l ∈ wrap_lines pfx content, l.length = 70 := by
  intro l hl
  have hcw : canvas_width = 70 := rfl
  have hw0 : 0 < canvas_width - pfx.length - 3 := by omega
  have hsp : ("| " : String).length = 2 := rfl
  have hsp2 : ("| " : String).data.length = 2 := rfl
  have hbar : ("|" : String).length = 1 := rfl
  have hbar2 : ("|" : String).data.length = 1 := rfl
  have h0 : ("" : String).length = 0 := rfl
  have hpfx : pfx.data.length = pfx.length := rfl
  unfold wrap_lines at hl
  rcases hP : pyWrap (canvas_width - pfx.length - 3) content with _ | ⟨first, rest⟩
  · rw [hP] at hl
    simp only [List.mem_singleton] at hl
    subst hl
    simp only [String.length_append]
    rw [pyLjust_length "" _ (Nat.zero_le _)]
    omega
  · rw [hP] at hl
    rcases List.mem_cons.mp hl with rfl | hl
    · have hle : first.length ≤ canvas_width - pfx.length - 3 :=
        pyWrap_le _ content hw0 first (by rw [hP]; exact List.mem_cons_self _ _)
      simp only [String.length_append]
      rw [pyLjust_length first _ hle]
      omega
    · obtain ⟨line, hline, rfl⟩ := List.mem_map.mp hl
      have hle : line.length ≤ canvas_width - pfx.length - 3 :=
        pyWrap_le _ content hw0 line (by rw [hP]; exact List.mem_cons_of_mem _ hline)
      simp only [String.length_append, length_mk, List.length_replicate]
      rw [pyLjust_length line _ hle]
      omega
theorem canvas_result_block_lines (r : TestResult) (block : List String)
    (hb : canvas_result_block r = some block)
    (hname : (canvas_status r.status ++ " â€¢ " ++ r.name).length ≤ 68) :
    (∀ l ∈ block, l.length = 70) ∧ block.getLast? = some canvas_border := by
  unfold canvas_result_block at hb
  rcases hurl : r.url with _ | u
  · rw [hurl] at hb
    cases hb
  · rw [hurl] at hb
    injection hb with hb
    subst hb
    constructor
    · intro l hl
      rcases List.mem_append.mp hl with h1 | h1
      · rcases List.mem_append.mp h1 with h2 | h2
        · rcases List.mem_append.mp h2 with h3 | h3
          · rw [List.mem_singleton.mp h3]
            exact center_line_length _ hname
          · exact wrap_lines_line_length "Detail: " r.details (by decide) l h3
        · exact wrap_lines_line_length "Link: " u (by decide) l h2
      · rw [List.mem_singleton.mp h1]
        exact canvas_border_length
    · rw [List.getLast?_concat]

theorem mapM_canvas_blocks (results : List TestResult) (blocks : List (List String))
    (h : results.mapM canvas_result_block = some blocks) :
    ∀ block ∈ blocks, ∃ r ∈ results, canvas_result_block r = some block := by
  induction results generalizing blocks with
  | nil =>
      have h' : some ([] : List (List String)) = some blocks := h
      cases h'
      intro block hb
      cases hb
  | cons r rest ih =>
      rw [List.mapM_cons] at h
      cases hr : canvas_result_block r with
      | none =>
          rw [hr] at h
          cases h
      | some b =>
          rw [hr] at h
          cases hrest : rest.mapM canvas_result_block with
          | none =>
              rw [hrest] at h
              cases h
          | some bs =>
              rw [hrest] at h
              have h' : some (b :: bs) = some blocks := h
              cases h'
              intro block hb
              rcases List.mem_cons.mp hb with rfl | hb
              · exact ⟨r, List.mem_cons_self _ _, hr⟩
              · obtain ⟨r', hr', hb'⟩ := ih bs hrest block hb
                exact ⟨r', List.mem_cons_of_mem _ hr', hb'⟩

theorem flatten_getLast?_border (blocks : List (List String))
    (h : ∀ bl ∈ blocks, bl.getLast? = some canvas_border) :
    blocks.flatten = [] ∨ blocks.flatten.getLast? = some canvas_border := by
  induction blocks with
  | nil => exact Or.inl rfl
  | cons bl rest ih =>
      right
      simp only [List.flatten_cons]
      rcases ih (fun x hx => h x (List.mem_cons_of_mem _ hx)) with hnil | hlast
      · rw [hnil, List.append_nil]
        exact h bl (List.mem_cons_self _ _)
      · rw [List.getLast?_append, hlast]
        rfl

theorem canvas_head_line_length (tr : RunOutcome)
    (htitle : ("Test Canvas: " ++ tr.bundle_info.name).length ≤ 68) :
    ∀ l ∈ canvas_head tr, l.length = 70 := by
  intro l hl
  unfold canvas_head at hl
  rcases List.mem_append.mp hl with h1 | h1
  · rcases List.mem_append.mp h1 with h2 | h2
    · rcases List.mem_append.mp h2 with h3 | h3
      · rcases List.mem_append.mp h3 with h4 | h4
        · rcases List.mem_append.mp h4 with h5 | h5
          · rcases List.mem_cons.mp h5 with rfl | h6
            · exact canvas_border_length
            · rcases List.mem_cons.mp h6 with rfl | h7
              · exact center_line_length _ htitle
              · cases h7
          · exact wrap_block_line_length _ l h5
        · rw [List.mem_singleton.mp h4]
          exact canvas_border_length
      · exact wrap_lines_line_length "Summary: " _ (by decide) l h3
    · exact wrap_lines_line_length "Duration: " _ (by decide) l h2
  · rw [List.mem_singleton.mp h1]
    exact canvas_border_length

theorem canvas_head_getLast (tr : RunOutcome) :
    (canvas_head tr).getLast? = some canvas_border := by
  unfold canvas_head
  rw [List.getLast?_concat]

/-- C6 (amended): whenever the canvas renderer succeeds and the two centered
texts fit in the 68-character interior (`str.center` returns over-long text
unchanged, so an over-long title or status line overflows the 70-column
frame — see the counterexample), every line of the canvas is exactly 70
characters long and the first and last lines are the border; and a
whitespace-normalized description longer than 66 characters wraps to more
than one line. -/
theorem canvas_dimensions :
    ∀ (tr : RunOutcome) (lines : List String),
      canvas_lines tr = some lines →
      ("Test Canvas: " ++ tr.bundle_info.name).length ≤ 68 →
      (∀ r ∈ tr.results, (canvas_status r.status ++ " â€¢ " ++ r.name).length ≤ 68) →
      (∀ l ∈ lines, l.length = 70) ∧
      lines.head? = some canvas_border ∧
      lines.getLast? = some canvas_border ∧
      (66 < tr.bundle_info.description.length → cleanText tr.bundle_info.description →
        2 ≤ (wrap_block tr.bundle_info.description).length) := by
  intro tr lines hcl htitle hstatus
  unfold canvas_lines at hcl
  rcases hM : tr.results.mapM canvas_result_block with _ | blocks
  · rw [hM] at hcl
    cases hcl
  · rw [hM] at hcl
    injection hcl with hcl
    subst hcl
    have hblocks := mapM_canvas_blocks tr.results blocks hM
    have hblock_lines : ∀ bl ∈ blocks,
        (∀ l ∈ bl, l.length = 70) ∧ bl.getLast? = some canvas_border := by
      intro bl hbl
      obtain ⟨r, hr, hb⟩ := hblocks bl hbl
      exact canvas_result_block_lines r bl hb (hstatus r hr)
    refine ⟨?_, ?_, ?_, ?_⟩
    · intro l hl
      rcases List.mem_append.mp hl with h | h
      · exact canvas_head_line_length tr htitle l h
      · obtain ⟨bl, hbl, hlbl⟩ := List.mem_flatten.mp h
        exact (hblock_lines bl hbl).1 l hlbl
    · rfl
    · show (canvas_head tr ++ blocks.flatten).getLast? = some canvas_border
      rcases flatten_getLast?_border blocks (fun bl hbl => (hblock_lines bl hbl).2) with
        hnil | hlast
      · rw [hnil, List.append_nil]
        exact canvas_head_getLast tr
      · rw [List.getLast?_append, hlast]
        rfl
    · intro hlen hcln
      unfold wrap_block
      have hcw : canvas_width - 4 = 66 := rfl
      have h2 := pyWrap_multiline (canvas_width - 4) tr.bundle_info.description
        (by decide) hcln (by omega)
      rw [List.length_map]
      have hne : (pyWrap (canvas_width - 4) tr.bundle_info.description).isEmpty = false := by
        rcases hP : pyWrap (canvas_width - 4) tr.bundle_info.description with _ | ⟨x, xs⟩
        · rw [hP] at h2
          simp at h2
        · rfl
      rw [if_neg (by rw [hne]; exact Bool.false_ne_true)]
      exact h2

/-- An outcome whose bundle name makes the centered title 69 characters
long (no results, so the canvas succeeds). -/
def overflow_outcome : RunOutcome :=
  { bundle_info := { name := "aaaaaaaaaaaaaaaaaaaaaaaaaaaaaaaaaaaaaaaaaaaaaaaaaaaaaaaa",
                     description := "d", category := "c", icon := "i",
                     version := "1.0.0", test_count := 0 }
    config := []
    results := []
    statistics := { total_tests := 0, passed := 0, failed := 0, skipped := 0,
                    pass_rate := 0, total_duration_ms := 0, execution_time_seconds := 0 }
    execution_time := 0 }

/-- C6 counterexample: for a bundle whose name is 56 characters long the
title line of the canvas is 71 characters, not 70 — `str.center` leaves
text longer than the interior width unchanged, so the claimed fixed width
fails for this `RunOutcome`. -/
theorem canvas_overflow_counterexample :
    (((canvas_lines overflow_outcome).getD [])[1]?).map String.length = some 71 := by
  decide

/-- An outcome with a clean 67-character description, used to instantiate
`canvas_dimensions`. -/
def long_description_outcome : RunOutcome :=
  { bundle_info := { name := "B",
                     description := "ddddddddddddddddddddddddddddddddddddddddddddddddddddddddddddddddddd",
                     category := "c", icon := "i", version := "1.0.0", test_count := 0 }
    config := []
    results := []
    statistics := { total_tests := 0, passed := 0, failed := 0, skipped := 0,
                    pass_rate := 0, total_duration_ms := 0, execution_time_seconds := 0 }
    execution_time := 0 }

theorem canvas_dimensions_witness :
    ((canvas_lines long_description_outcome).getD []).head? = some canvas_border ∧
    ((canvas_lines long_description_outcome).getD []).getLast? = some canvas_border ∧
    2 ≤ (wrap_block long_description_outcome.bundle_info.description).length := by
  have h := canvas_dimensions long_description_outcome
    ((canvas_lines long_description_outcome).getD []) rfl (by decide)
    (fun r hr => absurd hr (List.not_mem_nil r))
  exact ⟨h.2.1, h.2.2.1, h.2.2.2 (by decide) (by rfl)⟩

/-- The result a failed executor synthesizes (see `execute_cases`): its
`url` is `None`. -/
def crash_result : TestResult :=
  { name := "Boom", description := "d", status := .failed, duration_ms := 0,
    details := "exploded", url := none, timestamp := "t", error_message := some "boom" }

/-- An outcome holding one result with `url=None`, exactly what a run with
a raising executor produces. -/
def null_url_outcome : RunOutcome :=
  { bundle_info := { name := "B", description := "D", category := "c", icon := "i",
                     version := "1.0.0", test_count := 1 }
    config := []
    results := [crash_result]
    statistics := { total_tests := 1, passed := 0, failed := 1, skipped := 0,
                    pass_rate := 0, total_duration_ms := 0, execution_time_seconds := 0 }
    execution_time := 0 }

/-- A result carrying a url. -/
def linked_result : TestResult :=
  { name := "L", description := "d", status := .passed, duration_ms := 5,
    details := "det", url := some "http://x", timestamp := "t", error_message := none }

/-- An outcome holding one result with a url present. -/
def with_url_outcome : RunOutcome :=
  { bundle_info := { name := "B", description := "D", category := "c", icon := "i",
                     version := "1.0.0", test_count := 1 }
    config := []
    results := [linked_result]
    statistics := { total_tests := 1, passed := 1, failed := 0, skipped := 0,
                    pass_rate := 100, total_duration_ms := 5, execution_time_seconds := 0 }
    execution_time := 0 }

/-- C7 (the code at the failing input): rendering the canvas for an outcome
containing a result whose `url` is `None` crashes — `result.get('url',
'n/a')` returns `None` because the key is always present in the `to_dict`
dict, and `textwrap.wrap(None, ...)` raises — modelled by the renderer
returning `none`; with a url present the renderer succeeds and emits the
`Link:` line carrying that url. -/
theorem canvas_null_url_crash :
    generate_canvas_report null_url_outcome = none ∧
    (∃ lines, canvas_lines with_url_outcome = some lines ∧
      ("| Link: " ++ pyLjust "http://x" 61 ++ "|") ∈ lines) := by
  constructor
  · rfl
  · refine ⟨_, rfl, ?_⟩
    apply List.mem_append_right
    apply List.mem_flatten.mpr
    refine ⟨_, List.mem_cons_self _ _, ?_⟩
    apply List.mem_append_left
    apply List.mem_append_right
    exact List.mem_cons_self _ _
